import Mathlib

/-!
Shallow embedding of the reconciliation-relevant parts of the repository:

* `src/masonry/src/widgets/backdrop_blur.rs` — the retained `BackdropBlur`
  widget: its fields, `WidgetMut` setters (`set_child`, `set_blur_radius`,
  `set_tint`, `set_clip_content`) and `Widget` hooks (`children_ids`,
  `register_children`, `pre_paint`, `paint`).
* `src/xilem_masonry/src/view/backdrop_blur.rs` — the `BackdropBlur` view:
  `build`, `rebuild`, `message`.
* `src/xilem_masonry/src/view/portal.rs` and `src/xilem/src/view/portal.rs` —
  the two `Portal` views: `build`, `rebuild`, `message`.

Rust `f64` values are modelled by `Masonry.F64`, keeping exactly the structure
the code uses: finite values as rationals, two signed infinities, and NaN, with
IEEE-754 comparison semantics (`NaN` compares unequal to everything, itself
included). The zero sign is collapsed, which is faithful for the operations the
code performs (`==`, `!=`, `<`, `<=`, `max`), since IEEE treats `+0.0 == -0.0`.

Context side effects (invalidation signals requested through the widget
context, children handed over for removal) are made explicit as lists returned
next to the new widget state.
-/

namespace Masonry

/-- Model of Rust `f64` for the operations this code performs: a finite value
as a rational, a signed infinity (`true` = positive), or NaN. -/
inductive F64 where
  | fin : ℚ → F64
  | inf : Bool → F64
  | nan : F64
deriving DecidableEq

/-- IEEE-754 `==` on `F64`: NaN is unequal to everything, itself included. -/
def F64.ieeeEq : F64 → F64 → Bool
  | .fin a, .fin b => a == b
  | .inf a, .inf b => a == b
  | _, _ => false

/-- IEEE-754 `<` on `F64`: any comparison involving NaN is false. -/
def F64.ieeeLt : F64 → F64 → Bool
  | .fin a, .fin b => a < b
  | .fin _, .inf s => s
  | .inf s, .fin _ => !s
  | .inf a, .inf b => !a && b
  | _, _ => false

/-- IEEE-754 `<=` on `F64`: any comparison involving NaN is false. -/
def F64.ieeeLe (a b : F64) : Bool :=
  F64.ieeeLt a b || F64.ieeeEq a b

/-- Rust `f64::max`: if one argument is NaN the other is returned, otherwise
the greater of the two. -/
def F64.fmax : F64 → F64 → F64
  | .nan, b => b
  | a, .nan => a
  | a, b => if F64.ieeeLt a b then b else a

/-- Model of `peniko::Color`: four float components `[r, g, b, a]`.
`components[3]` is the alpha channel. -/
structure Color where
  r : F64
  g : F64
  b : F64
  a : F64
deriving DecidableEq

/-- Rust `PartialEq` for `Color`: componentwise IEEE `==`. -/
def Color.ieeeEq (c d : Color) : Bool :=
  F64.ieeeEq c.r d.r && F64.ieeeEq c.g d.g && F64.ieeeEq c.b d.b && F64.ieeeEq c.a d.a

/-- `Color::from_rgba8`: 8-bit channels scaled into unit-interval floats. -/
def Color.from_rgba8 (r g b a : ℕ) : Color :=
  ⟨.fin (r / 255), .fin (g / 255), .fin (b / 255), .fin (a / 255)⟩

/-- An invalidation signal requested through the widget context:
`ctx.request_render()`, `ctx.request_layout()`, `ctx.children_changed()`. -/
inductive Signal where
  | render
  | layout
  | childrenChanged
deriving DecidableEq

/-- Modelled from the spec: the escalation rule of the pass scheduler (which
is outside src/) — "requesting layout implies render is also required;
requesting a structural change implies both". Returns whether a signal makes
a repaint required. -/
def Signal.subsumesRender : Signal → Bool
  | .render => true
  | .layout => true
  | .childrenChanged => true

/-- The retained `BackdropBlur` widget. The owned child `WidgetPod` is
modelled by its widget id. -/
structure BackdropBlur where
  child : ℕ
  blur_radius : F64
  tint : Color
  clip_content : Bool
deriving DecidableEq

/-- `BackdropBlur::new`: wraps the child with the default blur radius `18.0`,
tint `Color::from_rgba8(0xff, 0xff, 0xff, 0x24)` and `clip_content = true`. -/
def BackdropBlur.new (child : ℕ) : BackdropBlur :=
  { child := child
    blur_radius := .fin 18
    tint := Color.from_rgba8 0xff 0xff 0xff 0x24
    clip_content := true }

/-- `BackdropBlur::blur_radius` builder method. -/
def BackdropBlur.with_blur_radius (self : BackdropBlur) (blur_radius : F64) : BackdropBlur :=
  { self with blur_radius := blur_radius }

/-- `BackdropBlur::tint` builder method. -/
def BackdropBlur.with_tint (self : BackdropBlur) (tint : Color) : BackdropBlur :=
  { self with tint := tint }

/-- `BackdropBlur::clip_content` builder method. -/
def BackdropBlur.with_clip_content (self : BackdropBlur) (clip_content : Bool) : BackdropBlur :=
  { self with clip_content := clip_content }

/-- Effects a `WidgetMut` setter performs on its context: the invalidation
signals it requests, in order, and the child pods it hands to
`ctx.remove_child`. -/
structure CtxEffects where
  signals : List Signal
  removed : List ℕ
deriving DecidableEq

/-- `BackdropBlur::set_child`: replaces the owned child pod, hands the old pod
to `ctx.remove_child`, and calls `ctx.children_changed()`. -/
def BackdropBlur.set_child (this : BackdropBlur) (child : ℕ) : BackdropBlur × CtxEffects :=
  ({ this with child := child },
   { signals := [.childrenChanged], removed := [this.child] })

/-- `BackdropBlur::set_blur_radius`: if the new value compares unequal
(IEEE `!=`) to the current one, store it and call `ctx.request_render()`;
otherwise do nothing. -/
def BackdropBlur.set_blur_radius (this : BackdropBlur) (blur_radius : F64) :
    BackdropBlur × CtxEffects :=
  if !(F64.ieeeEq this.blur_radius blur_radius) then
    ({ this with blur_radius := blur_radius }, { signals := [.render], removed := [] })
  else
    (this, { signals := [], removed := [] })

/-- `BackdropBlur::set_tint`: if the new color compares unequal to the current
one, store it and call `ctx.request_render()`; otherwise do nothing. -/
def BackdropBlur.set_tint (this : BackdropBlur) (tint : Color) : BackdropBlur × CtxEffects :=
  if !(Color.ieeeEq this.tint tint) then
    ({ this with tint := tint }, { signals := [.render], removed := [] })
  else
    (this, { signals := [], removed := [] })

/-- `BackdropBlur::set_clip_content`: if the new flag differs from the current
one, store it and call `ctx.request_layout()`; otherwise do nothing. -/
def BackdropBlur.set_clip_content (this : BackdropBlur) (clip_content : Bool) :
    BackdropBlur × CtxEffects :=
  if this.clip_content != clip_content then
    ({ this with clip_content := clip_content }, { signals := [.layout], removed := [] })
  else
    (this, { signals := [], removed := [] })

/-- `Widget::children_ids` for `BackdropBlur`: the one-element slice holding
the owned child's id. -/
def BackdropBlur.children_ids (self : BackdropBlur) : List ℕ :=
  [self.child]

/-- `Widget::register_children` for `BackdropBlur`: registers exactly the
owned child pod. -/
def BackdropBlur.register_children (self : BackdropBlur) : List ℕ :=
  [self.child]

/-- A drawing primitive emitted into the `vello::Scene` by the paint hooks. -/
inductive DrawCmd where
  | boxShadow
  | blurredRoundedRect (tint : Color) (cornerRadius : F64) (blurRadius : F64)
  | fillTint (tint : Color)
  | background
  | border
deriving DecidableEq

/-- `Widget::pre_paint` for `BackdropBlur`: paints the box shadow, then —
after clamping the blur radius and corner radius at `0.0` via `f64::max` —
either the blurred rounded rectangle (when the clamped blur radius is
positive), or a plain fill with the tint (when the blur radius is not positive
and the tint's alpha component is positive), or neither; finally the regular
background and border. `cornerRadius` stands for the corner-radius property
fetched from `PrePaintProps`. -/
def BackdropBlur.pre_paint (self : BackdropBlur) (cornerRadius : F64) : List DrawCmd :=
  let blur_radius := F64.fmax self.blur_radius (.fin 0)
  let corner_radius := F64.fmax cornerRadius (.fin 0)
  [.boxShadow]
    ++ (if F64.ieeeLt (.fin 0) blur_radius then
          [.blurredRoundedRect self.tint corner_radius blur_radius]
        else if F64.ieeeLt (.fin 0) self.tint.a then
          [.fillTint self.tint]
        else [])
    ++ [.background, .border]

/-- `Widget::paint` for `BackdropBlur`: an empty body, draws nothing. -/
def BackdropBlur.paint (_self : BackdropBlur) : List DrawCmd :=
  []

/-- Whether a drawing primitive is the blurred rounded rectangle
(`Scene::draw_blurred_rounded_rect_in`). -/
def DrawCmd.isBlur : DrawCmd → Bool
  | .blurredRoundedRect _ _ _ => true
  | _ => false

/-- Whether a drawing primitive is the plain tint fill (`Scene::fill` with the
tint color). -/
def DrawCmd.isFill : DrawCmd → Bool
  | .fillTint _ => true
  | _ => false

/-- Modelled from the spec: the masonry `Portal` widget itself is not under
src/ — only its view-layer callers are. Its declarative fields are those the
views set, and the spec's build contract ("constructs a brand-new Element from
a View Node") together with the view-layer doc comments ("The default is
`false`" for each constraint flag) fix the `new` defaults at `false`. The
owned child pod is modelled by its widget id. -/
structure Portal where
  child : ℕ
  constrain_horizontal : Bool
  constrain_vertical : Bool
  must_fill : Bool
  right_to_left : Bool
deriving DecidableEq

/-- Modelled from the spec: `Portal::new` wraps the child with every
constraint flag at its documented default `false`. -/
def Portal.new (child : ℕ) : Portal :=
  { child := child
    constrain_horizontal := false
    constrain_vertical := false
    must_fill := false
    right_to_left := false }

/-- Modelled from the spec: builder method setting `constrain_horizontal`. -/
def Portal.with_constrain_horizontal (self : Portal) (constrain : Bool) : Portal :=
  { self with constrain_horizontal := constrain }

/-- Modelled from the spec: builder method setting `constrain_vertical`. -/
def Portal.with_constrain_vertical (self : Portal) (constrain : Bool) : Portal :=
  { self with constrain_vertical := constrain }

/-- Modelled from the spec: builder method setting `must_fill`. -/
def Portal.content_must_fill (self : Portal) (must_fill : Bool) : Portal :=
  { self with must_fill := must_fill }

/-- Modelled from the spec: builder method setting `right_to_left`. -/
def Portal.with_rtl (self : Portal) (right_to_left : Bool) : Portal :=
  { self with right_to_left := right_to_left }

end Masonry

namespace ViewCore

/-- `MessageResult` of the view core: the outcome of routing a message. -/
inductive MessageResult (A : Type) where
  | action : A → MessageResult A
  | requestRebuild
  | nop
  | stale
deriving DecidableEq

/-- One observable step of a `Portal` view's `rebuild`: a widget setter call
through the element's mutation handle, or the unconditional recursion into the
child view's `rebuild` with the element's child mutation handle (recording the
current and previous child views passed down). -/
inductive PortalRebuildStep (V : Type) where
  | setConstrainHorizontal : Bool → PortalRebuildStep V
  | setConstrainVertical : Bool → PortalRebuildStep V
  | setContentMustFill : Bool → PortalRebuildStep V
  | recurse : V → V → PortalRebuildStep V

/-- One observable step of a `BackdropBlur` view's `rebuild`. -/
inductive BlurRebuildStep (V : Type) where
  | setBlurRadius : Masonry.F64 → BlurRebuildStep V
  | setTint : Masonry.Color → BlurRebuildStep V
  | setClipContent : Bool → BlurRebuildStep V
  | recurse : V → V → BlurRebuildStep V

end ViewCore

namespace XilemMasonry

open Masonry ViewCore

/-- The `BackdropBlur` view of `src/xilem_masonry/src/view/backdrop_blur.rs`,
parameterized over the child view type `V`. -/
structure BackdropBlurView (V : Type) where
  child : V
  blur_radius : F64
  tint : Color
  clip_content : Bool

/-- The `backdrop_blur` constructor: wraps the child with the default blur
radius `18.0`, tint `Color::from_rgba8(0xff, 0xff, 0xff, 0x24)` and
`clip_content = true`. -/
def backdrop_blur {V : Type} (child : V) : BackdropBlurView V :=
  { child := child
    blur_radius := .fin 18
    tint := Color.from_rgba8 0xff 0xff 0xff 0x24
    clip_content := true }

/-- `BackdropBlur::blur_radius` builder method of the view. -/
def BackdropBlurView.with_blur_radius {V : Type} (self : BackdropBlurView V) (blur_radius : F64) :
    BackdropBlurView V :=
  { self with blur_radius := blur_radius }

/-- `BackdropBlur::tint` builder method of the view. -/
def BackdropBlurView.with_tint {V : Type} (self : BackdropBlurView V) (tint : Color) :
    BackdropBlurView V :=
  { self with tint := tint }

/-- `BackdropBlur::clip_content` builder method of the view. -/
def BackdropBlurView.with_clip_content {V : Type} (self : BackdropBlurView V)
    (clip_content : Bool) : BackdropBlurView V :=
  { self with clip_content := clip_content }

/-- `View::build` for the `BackdropBlur` view: first builds the child
(`childWidget` is the id of the widget that build produced), then constructs
the widget as `widgets::BackdropBlur::new(child).blur_radius(..).tint(..)
.clip_content(..)` and wraps it in a pod. -/
def BackdropBlurView.build {V : Type} (self : BackdropBlurView V) (childWidget : ℕ) :
    Masonry.BackdropBlur :=
  (((Masonry.BackdropBlur.new childWidget).with_blur_radius self.blur_radius).with_tint
      self.tint).with_clip_content self.clip_content

/-- `View::rebuild` for the `BackdropBlur` view, as the ordered trace of its
element mutations: each property setter is called exactly when the new view's
value compares unequal (Rust `!=`) to the previous view's, then the child
view's `rebuild` is entered unconditionally via `child_mut`. -/
def BackdropBlurView.rebuild {V : Type} (self prev : BackdropBlurView V) :
    List (BlurRebuildStep V) :=
  (if !(F64.ieeeEq self.blur_radius prev.blur_radius) then
      [.setBlurRadius self.blur_radius] else [])
    ++ (if !(Color.ieeeEq self.tint prev.tint) then [.setTint self.tint] else [])
    ++ (if self.clip_content != prev.clip_content then [.setClipContent self.clip_content] else [])
    ++ [.recurse self.child prev.child]

/-- `View::rebuild` for the `BackdropBlur` view, applied to the retained
widget: the same guarded setter calls as `BackdropBlurView.rebuild`, composed
on the widget state, collecting the invalidation signals each setter requests
(the recursion into the child view does not touch this widget's own fields). -/
def BackdropBlurView.rebuild_widget {V : Type} (self prev : BackdropBlurView V)
    (w : Masonry.BackdropBlur) : Masonry.BackdropBlur × List Signal :=
  let r1 := if !(F64.ieeeEq self.blur_radius prev.blur_radius) then
      Masonry.BackdropBlur.set_blur_radius w self.blur_radius
    else (w, { signals := [], removed := [] })
  let r2 := if !(Color.ieeeEq self.tint prev.tint) then
      Masonry.BackdropBlur.set_tint r1.1 self.tint
    else (r1.1, { signals := [], removed := [] })
  let r3 := if self.clip_content != prev.clip_content then
      Masonry.BackdropBlur.set_clip_content r2.1 self.clip_content
    else (r2.1, { signals := [], removed := [] })
  (r3.1, r1.2.signals ++ r2.2.signals ++ r3.2.signals)

/-- `View::message` for the `BackdropBlur` view: obtains the child element via
`child_mut`, downcasts it, and returns the child view's `message` result
unchanged. `childMessage` stands for the child view's `message` applied to its
view state, message context and app state. -/
def BackdropBlurView.message {V A : Type} (self : BackdropBlurView V)
    (childMessage : V → MessageResult A) : MessageResult A :=
  childMessage self.child

/-- The `Portal` view of `src/xilem_masonry/src/view/portal.rs`. -/
structure PortalView (V : Type) where
  child : V
  constrain_horizontal : Bool
  constrain_vertical : Bool
  must_fill : Bool
  right_to_left : Bool

/-- The `portal` constructor: every flag starts `false`. -/
def portal {V : Type} (child : V) : PortalView V :=
  { child := child
    constrain_horizontal := false
    constrain_vertical := false
    must_fill := false
    right_to_left := false }

/-- `Portal::content_must_fill` builder method of the view. This crate's
`Portal` view exposes only this builder and `with_rtl`; the two constraint
flags have no builder and stay at their constructor value. -/
def PortalView.content_must_fill {V : Type} (self : PortalView V) (must_fill : Bool) :
    PortalView V :=
  { self with must_fill := must_fill }

/-- `Portal::with_rtl` builder method of the view. -/
def PortalView.with_rtl {V : Type} (self : PortalView V) (right_to_left : Bool) : PortalView V :=
  { self with right_to_left := right_to_left }

/-- `View::build` for this crate's `Portal` view: builds the child, then
constructs `widgets::Portal::new(child).content_must_fill(..).with_rtl(..)` —
note that the two constraint flags are not passed to the widget. -/
def PortalView.build {V : Type} (self : PortalView V) (childWidget : ℕ) : Masonry.Portal :=
  ((Masonry.Portal.new childWidget).content_must_fill self.must_fill).with_rtl
    self.right_to_left

/-- `View::rebuild` for this crate's `Portal` view, as the ordered trace of
its element mutations: the three constraint/fill setters are each called
exactly when the new value differs from the previous one, then the child
view's `rebuild` is entered unconditionally — no step compares or applies
`right_to_left`. -/
def PortalView.rebuild {V : Type} (self prev : PortalView V) : List (PortalRebuildStep V) :=
  (if self.constrain_horizontal != prev.constrain_horizontal then
      [.setConstrainHorizontal self.constrain_horizontal] else [])
    ++ (if self.constrain_vertical != prev.constrain_vertical then
          [.setConstrainVertical self.constrain_vertical] else [])
    ++ (if self.must_fill != prev.must_fill then [.setContentMustFill self.must_fill] else [])
    ++ [.recurse self.child prev.child]

/-- `View::message` for this crate's `Portal` view: delegates to the child
view's `message` on the child element and returns its result unchanged. -/
def PortalView.message {V A : Type} (self : PortalView V)
    (childMessage : V → MessageResult A) : MessageResult A :=
  childMessage self.child

end XilemMasonry

namespace Xilem

open Masonry ViewCore

/-- The `Portal` view of `src/xilem/src/view/portal.rs`. -/
structure PortalView (V : Type) where
  child : V
  constrain_horizontal : Bool
  constrain_vertical : Bool
  must_fill : Bool
  right_to_left : Bool

/-- The `portal` constructor: every flag starts `false`. -/
def portal {V : Type} (child : V) : PortalView V :=
  { child := child
    constrain_horizontal := false
    constrain_vertical := false
    must_fill := false
    right_to_left := false }

/-- `Portal::constrain_vertical` builder method of the view. -/
def PortalView.with_constrain_vertical {V : Type} (self : PortalView V) (constrain : Bool) :
    PortalView V :=
  { self with constrain_vertical := constrain }

/-- `Portal::constrain_horizontal` builder method of the view. -/
def PortalView.with_constrain_horizontal {V : Type} (self : PortalView V) (constrain : Bool) :
    PortalView V :=
  { self with constrain_horizontal := constrain }

/-- `Portal::content_must_fill` builder method of the view. -/
def PortalView.content_must_fill {V : Type} (self : PortalView V) (must_fill : Bool) :
    PortalView V :=
  { self with must_fill := must_fill }

/-- `Portal::with_rtl` builder method of the view. -/
def PortalView.with_rtl {V : Type} (self : PortalView V) (right_to_left : Bool) : PortalView V :=
  { self with right_to_left := right_to_left }

/-- `View::build` for this crate's `Portal` view: builds the child, then
constructs `widgets::Portal::new(child).constrain_horizontal(..)
.constrain_vertical(..).content_must_fill(..).with_rtl(..)`. -/
def PortalView.build {V : Type} (self : PortalView V) (childWidget : ℕ) : Masonry.Portal :=
  ((((Masonry.Portal.new childWidget).with_constrain_horizontal
          self.constrain_horizontal).with_constrain_vertical
        self.constrain_vertical).content_must_fill self.must_fill).with_rtl
    self.right_to_left

/-- `View::rebuild` for this crate's `Portal` view, as the ordered trace of
its element mutations: identical in structure to the `xilem_masonry` version —
three guarded setters, the unconditional recursion into the child, and no step
for `right_to_left`. -/
def PortalView.rebuild {V : Type} (self prev : PortalView V) : List (PortalRebuildStep V) :=
  (if self.constrain_horizontal != prev.constrain_horizontal then
      [.setConstrainHorizontal self.constrain_horizontal] else [])
    ++ (if self.constrain_vertical != prev.constrain_vertical then
          [.setConstrainVertical self.constrain_vertical] else [])
    ++ (if self.must_fill != prev.must_fill then [.setContentMustFill self.must_fill] else [])
    ++ [.recurse self.child prev.child]

/-- `View::message` for this crate's `Portal` view: delegates to the child
view's `message` on the child element and returns its result unchanged. -/
def PortalView.message {V A : Type} (self : PortalView V)
    (childMessage : V → MessageResult A) : MessageResult A :=
  childMessage self.child

end Xilem


section Theorems

open Masonry ViewCore

/-- Helper: a blur radius that compares at most `0.0` under IEEE `<=` is
clamped to exactly `0.0` by `f64::max(_, 0.0)`. -/
lemma F64.fmax_zero_of_ieeeLe_zero {a : F64} (h : a.ieeeLe (.fin 0) = true) :
    a.fmax (.fin 0) = .fin 0 := by
  cases a with
  | fin q =>
      simp only [F64.ieeeLe, F64.ieeeLt, F64.ieeeEq, Bool.or_eq_true, decide_eq_true_eq,
        beq_iff_eq] at h
      rcases h with h | h
      · simp [F64.fmax, F64.ieeeLt, h]
      · simp [F64.fmax, F64.ieeeLt, h]
  | inf s =>
      cases s with
      | false => simp [F64.fmax, F64.ieeeLt]
      | true => simp [F64.ieeeLe, F64.ieeeLt, F64.ieeeEq] at h
  | nan => simp [F64.ieeeLe, F64.ieeeLt, F64.ieeeEq] at h

/-- C1: the claim says every changed declarative Portal property — including
`right_to_left` — is applied by `rebuild` through the corresponding widget
setter. The code disagrees: in both crates' `Portal::rebuild`, a pair of views
differing only in `right_to_left` produces no setter call at all, only the
unconditional recursion into the child, so the widget keeps its stale
`right_to_left` value. -/
theorem portal_rebuild_ignores_right_to_left :
    (XilemMasonry.PortalView.with_rtl (XilemMasonry.portal ()) true).right_to_left ≠
        (XilemMasonry.portal ()).right_to_left ∧
    XilemMasonry.PortalView.rebuild (XilemMasonry.PortalView.with_rtl (XilemMasonry.portal ()) true)
        (XilemMasonry.portal ()) = [.recurse () ()] ∧
    (Xilem.PortalView.with_rtl (Xilem.portal ()) true).right_to_left ≠
        (Xilem.portal ()).right_to_left ∧
    Xilem.PortalView.rebuild (Xilem.PortalView.with_rtl (Xilem.portal ()) true)
        (Xilem.portal ()) = [.recurse () ()] := by
  refine ⟨by decide, rfl, by decide, rfl⟩

/-- C3 counterexample: with a NaN blur radius, two successive
`set_blur_radius` calls with the same new value emit two render signals, not
one, because NaN compares unequal to itself under Rust `!=`. -/
theorem backdrop_blur_double_set_nan_two_signals :
    ¬ (((Masonry.BackdropBlur.new 0).set_blur_radius .nan).2.signals ++
        ((((Masonry.BackdropBlur.new 0).set_blur_radius .nan).1).set_blur_radius
          .nan).2.signals).length = 1 := by
  decide

/-- C3 amended: for new values whose IEEE comparison is reflexive (every f64
except NaN, and colors without NaN components), each `BackdropBlur` setter is
a suppressed no-op when the new value equals the current one (widget
unchanged, no signal), and calling a setter twice in succession with the same
new value, different from the current one, emits exactly one signal in total:
the first call emits it and the second call emits nothing. -/
theorem setters_noop_and_idempotent_without_nan
    (w : Masonry.BackdropBlur) (v : F64) (c : Color) (b : Bool)
    (hv : v.ieeeEq v = true) (hc : c.ieeeEq c = true) :
    (w.blur_radius.ieeeEq v = true →
      w.set_blur_radius v = (w, { signals := [], removed := [] })) ∧
    (w.tint.ieeeEq c = true → w.set_tint c = (w, { signals := [], removed := [] })) ∧
    (w.clip_content = b → w.set_clip_content b = (w, { signals := [], removed := [] })) ∧
    (w.blur_radius.ieeeEq v = false →
      (w.set_blur_radius v).2.signals = [.render] ∧
      ((w.set_blur_radius v).1.set_blur_radius v).2.signals = []) ∧
    (w.tint.ieeeEq c = false →
      (w.set_tint c).2.signals = [.render] ∧
      ((w.set_tint c).1.set_tint c).2.signals = []) ∧
    (w.clip_content ≠ b →
      (w.set_clip_content b).2.signals = [.layout] ∧
      ((w.set_clip_content b).1.set_clip_content b).2.signals = []) := by
  refine ⟨?_, ?_, ?_, ?_, ?_, ?_⟩
  · intro h; simp [Masonry.BackdropBlur.set_blur_radius, h]
  · intro h; simp [Masonry.BackdropBlur.set_tint, h]
  · intro h; simp [Masonry.BackdropBlur.set_clip_content, h]
  · intro h
    constructor
    · simp [Masonry.BackdropBlur.set_blur_radius, h]
    · simp [Masonry.BackdropBlur.set_blur_radius, h, hv]
  · intro h
    constructor
    · simp [Masonry.BackdropBlur.set_tint, h]
    · simp [Masonry.BackdropBlur.set_tint, h, hc]
  · intro h
    constructor
    · simp [Masonry.BackdropBlur.set_clip_content, h]
    · simp [Masonry.BackdropBlur.set_clip_content, h]

/-- C3 amended, witness: a concrete instantiation — widget at blur radius
`18.0`, new blur radius `24.0`, a fully opaque white tint, clip flag `false`. -/
theorem setters_noop_and_idempotent_without_nan_witness :
    ((F64.fin 24).ieeeEq (.fin 24) = true ∧
      (Color.from_rgba8 255 255 255 255).ieeeEq (Color.from_rgba8 255 255 255 255) = true) ∧
    (((Masonry.BackdropBlur.new 0).blur_radius.ieeeEq (.fin 24) = true →
      (Masonry.BackdropBlur.new 0).set_blur_radius (.fin 24) =
        (Masonry.BackdropBlur.new 0, { signals := [], removed := [] })) ∧
    ((Masonry.BackdropBlur.new 0).tint.ieeeEq (Color.from_rgba8 255 255 255 255) = true →
      (Masonry.BackdropBlur.new 0).set_tint (Color.from_rgba8 255 255 255 255) =
        (Masonry.BackdropBlur.new 0, { signals := [], removed := [] })) ∧
    ((Masonry.BackdropBlur.new 0).clip_content = false →
      (Masonry.BackdropBlur.new 0).set_clip_content false =
        (Masonry.BackdropBlur.new 0, { signals := [], removed := [] })) ∧
    ((Masonry.BackdropBlur.new 0).blur_radius.ieeeEq (.fin 24) = false →
      ((Masonry.BackdropBlur.new 0).set_blur_radius (.fin 24)).2.signals = [.render] ∧
      (((Masonry.BackdropBlur.new 0).set_blur_radius (.fin 24)).1.set_blur_radius
        (.fin 24)).2.signals = []) ∧
    ((Masonry.BackdropBlur.new 0).tint.ieeeEq (Color.from_rgba8 255 255 255 255) = false →
      ((Masonry.BackdropBlur.new 0).set_tint (Color.from_rgba8 255 255 255 255)).2.signals =
        [.render] ∧
      (((Masonry.BackdropBlur.new 0).set_tint (Color.from_rgba8 255 255 255 255)).1.set_tint
        (Color.from_rgba8 255 255 255 255)).2.signals = []) ∧
    ((Masonry.BackdropBlur.new 0).clip_content ≠ false →
      ((Masonry.BackdropBlur.new 0).set_clip_content false).2.signals = [.layout] ∧
      (((Masonry.BackdropBlur.new 0).set_clip_content false).1.set_clip_content
        false).2.signals = [])) :=
  ⟨⟨by decide, by simp [Masonry.Color.ieeeEq, Masonry.F64.ieeeEq, Masonry.Color.from_rgba8]⟩,
    setters_noop_and_idempotent_without_nan (Masonry.BackdropBlur.new 0) (.fin 24)
      (Color.from_rgba8 255 255 255 255) false (by decide)
      (by simp [Masonry.Color.ieeeEq, Masonry.F64.ieeeEq, Masonry.Color.from_rgba8])⟩

/-- C4: setting a blur radius that differs from the current one mutates only
the `blur_radius` field (child, tint and clip flag are untouched) and requests
exactly one render signal — no layout signal, no removal; `set_tint` behaves
the same for the `tint` field. -/
theorem changed_blur_or_tint_single_render_signal
    (w : Masonry.BackdropBlur) (v : F64) (c : Color)
    (hv : w.blur_radius.ieeeEq v = false) (hc : w.tint.ieeeEq c = false) :
    w.set_blur_radius v =
      ({ w with blur_radius := v }, { signals := [.render], removed := [] }) ∧
    (w.set_blur_radius v).2.signals.count .layout = 0 ∧
    w.set_tint c = ({ w with tint := c }, { signals := [.render], removed := [] }) ∧
    (w.set_tint c).2.signals.count .layout = 0 := by
  refine ⟨?_, ?_, ?_, ?_⟩
  · simp [Masonry.BackdropBlur.set_blur_radius, hv]
  · simp [Masonry.BackdropBlur.set_blur_radius, hv]
  · simp [Masonry.BackdropBlur.set_tint, hc]
  · simp [Masonry.BackdropBlur.set_tint, hc]

/-- C4 witness: Scenario A — a freshly built widget at blur radius `18.0` set
to `24.0`, and its default translucent white tint set to opaque red. -/
theorem changed_blur_or_tint_single_render_signal_witness :
    ((Masonry.BackdropBlur.new 7).blur_radius.ieeeEq (.fin 24) = false ∧
      (Masonry.BackdropBlur.new 7).tint.ieeeEq ⟨.fin 1, .fin 0, .fin 0, .fin 1⟩ = false) ∧
    ((Masonry.BackdropBlur.new 7).set_blur_radius (.fin 24) =
      ({ Masonry.BackdropBlur.new 7 with blur_radius := .fin 24 },
        { signals := [.render], removed := [] }) ∧
    ((Masonry.BackdropBlur.new 7).set_blur_radius (.fin 24)).2.signals.count .layout = 0 ∧
    (Masonry.BackdropBlur.new 7).set_tint ⟨.fin 1, .fin 0, .fin 0, .fin 1⟩ =
      ({ Masonry.BackdropBlur.new 7 with tint := ⟨.fin 1, .fin 0, .fin 0, .fin 1⟩ },
        { signals := [.render], removed := [] }) ∧
    ((Masonry.BackdropBlur.new 7).set_tint
        ⟨.fin 1, .fin 0, .fin 0, .fin 1⟩).2.signals.count .layout = 0) :=
  ⟨⟨by decide, by simp [Masonry.BackdropBlur.new, Masonry.Color.ieeeEq, Masonry.F64.ieeeEq,
      Masonry.Color.from_rgba8]⟩,
    changed_blur_or_tint_single_render_signal (Masonry.BackdropBlur.new 7) (.fin 24)
      ⟨.fin 1, .fin 0, .fin 0, .fin 1⟩ (by decide)
      (by simp [Masonry.BackdropBlur.new, Masonry.Color.ieeeEq, Masonry.F64.ieeeEq,
        Masonry.Color.from_rgba8])⟩

/-- C5: toggling `clip_content` to a different value mutates only that flag
and requests exactly one layout signal and zero render signals; by the
(spec-modelled) escalation rule, every signal it emits subsumes render, so no
separate render signal is needed. -/
theorem changed_clip_single_layout_signal
    (w : Masonry.BackdropBlur) (b : Bool) (h : w.clip_content ≠ b) :
    w.set_clip_content b =
      ({ w with clip_content := b }, { signals := [.layout], removed := [] }) ∧
    (w.set_clip_content b).2.signals.count .render = 0 ∧
    (w.set_clip_content b).2.signals.count .layout = 1 ∧
    ((w.set_clip_content b).2.signals.all Signal.subsumesRender) = true := by
  have hb : (w.clip_content != b) = true := by
    cases hcc : w.clip_content <;> cases b <;> simp_all
  refine ⟨?_, ?_, ?_, ?_⟩ <;>
    simp [Masonry.BackdropBlur.set_clip_content, hb, Masonry.Signal.subsumesRender]

/-- C5 witness: Scenario B — a widget with `clip_content = false` toggled to
`true`. -/
theorem changed_clip_single_layout_signal_witness :
    ((Masonry.BackdropBlur.new 3).with_clip_content false).clip_content ≠ true ∧
    (((Masonry.BackdropBlur.new 3).with_clip_content false).set_clip_content true =
      ({ (Masonry.BackdropBlur.new 3).with_clip_content false with clip_content := true },
        { signals := [.layout], removed := [] }) ∧
    (((Masonry.BackdropBlur.new 3).with_clip_content false).set_clip_content
        true).2.signals.count .render = 0 ∧
    (((Masonry.BackdropBlur.new 3).with_clip_content false).set_clip_content
        true).2.signals.count .layout = 1 ∧
    ((((Masonry.BackdropBlur.new 3).with_clip_content false).set_clip_content
        true).2.signals.all Signal.subsumesRender) = true) :=
  ⟨by decide,
    changed_clip_single_layout_signal ((Masonry.BackdropBlur.new 3).with_clip_content false)
      true (by decide)⟩

/-- C6: `set_child` hands exactly the previously owned child pod to the
context for removal, installs the new child in its place leaving every other
field untouched, and requests the `children_changed` structural signal exactly
once. -/
theorem set_child_replaces_and_signals_once (w : Masonry.BackdropBlur) (c : ℕ) :
    w.set_child c =
      ({ w with child := c }, { signals := [.childrenChanged], removed := [w.child] }) ∧
    (w.set_child c).2.signals.count .childrenChanged = 1 := by
  constructor
  · rfl
  · simp [Masonry.BackdropBlur.set_child]

/-- C7: the `BackdropBlur` widget always has exactly one child:
`children_ids` is the one-element list holding the owned child's id,
`register_children` registers exactly that child, and the widget produced by
`new`, by the view's `build`, by the view's `rebuild` applied to the widget,
and by `set_child` keeps that one-child shape (with `set_child` owning the
new child). -/
theorem backdrop_blur_one_child_shape (V : Type) (w : Masonry.BackdropBlur) (c cw : ℕ)
    (v p : XilemMasonry.BackdropBlurView V) :
    w.children_ids = [w.child] ∧
    w.children_ids.length = 1 ∧
    w.register_children = w.children_ids ∧
    (Masonry.BackdropBlur.new cw).children_ids = [cw] ∧
    (v.build cw).children_ids = [cw] ∧
    ((v.rebuild_widget p w).1).children_ids = [w.child] ∧
    ((w.set_child c).1).children_ids = [c] := by
  refine ⟨rfl, rfl, rfl, rfl, rfl, ?_, rfl⟩
  simp only [XilemMasonry.BackdropBlurView.rebuild_widget,
    Masonry.BackdropBlur.set_blur_radius, Masonry.BackdropBlur.set_tint,
    Masonry.BackdropBlur.set_clip_content, Masonry.BackdropBlur.children_ids]
  split_ifs <;> rfl

/-- C2: `build` constructs a widget carrying exactly the view's declarative
properties, wrapping the widget built for the child: all four flags for the
`xilem` `Portal` view; for the `xilem_masonry` `Portal` view, whose two
constraint flags are fixed at `false` by its constructor (it exposes no
builder for them), the `must_fill` and `right_to_left` flags are passed and
the constraint flags agree with the widget defaults; and all three
`BackdropBlur` properties. -/
theorem build_carries_declared_properties
    (V : Type) (vx : Xilem.PortalView V) (vm : XilemMasonry.PortalView V)
    (vb : XilemMasonry.BackdropBlurView V) (cw : ℕ)
    (hh : vm.constrain_horizontal = false) (hv : vm.constrain_vertical = false) :
    ((vx.build cw).constrain_horizontal = vx.constrain_horizontal ∧
      (vx.build cw).constrain_vertical = vx.constrain_vertical ∧
      (vx.build cw).must_fill = vx.must_fill ∧
      (vx.build cw).right_to_left = vx.right_to_left ∧
      (vx.build cw).child = cw) ∧
    ((vm.build cw).constrain_horizontal = vm.constrain_horizontal ∧
      (vm.build cw).constrain_vertical = vm.constrain_vertical ∧
      (vm.build cw).must_fill = vm.must_fill ∧
      (vm.build cw).right_to_left = vm.right_to_left ∧
      (vm.build cw).child = cw) ∧
    ((vb.build cw).blur_radius = vb.blur_radius ∧
      (vb.build cw).tint = vb.tint ∧
      (vb.build cw).clip_content = vb.clip_content ∧
      (vb.build cw).child = cw) := by
  refine ⟨⟨rfl, rfl, rfl, rfl, rfl⟩, ⟨?_, ?_, rfl, rfl, rfl⟩, ⟨rfl, rfl, rfl, rfl⟩⟩
  · simp [XilemMasonry.PortalView.build, Masonry.Portal.new, Masonry.Portal.content_must_fill,
      Masonry.Portal.with_rtl, hh]
  · simp [XilemMasonry.PortalView.build, Masonry.Portal.new, Masonry.Portal.content_must_fill,
      Masonry.Portal.with_rtl, hv]

/-- C2 witness: concrete views — an `xilem` Portal with every flag `true`, an
`xilem_masonry` Portal as produced by its `portal` constructor with
`content_must_fill(true).with_rtl(true)`, and a default `backdrop_blur` view,
each built over child widget id `9`. -/
theorem build_carries_declared_properties_witness :
    (((XilemMasonry.portal (V := Unit) ()).content_must_fill true).with_rtl
          true).constrain_horizontal = false ∧
    (((XilemMasonry.portal (V := Unit) ()).content_must_fill true).with_rtl
          true).constrain_vertical = false ∧
    (((((((Xilem.portal (V := Unit) ()).with_constrain_horizontal true).with_constrain_vertical
            true).content_must_fill true).with_rtl true).build 9).constrain_horizontal =
        ((((((Xilem.portal (V := Unit) ()).with_constrain_horizontal true).with_constrain_vertical
            true).content_must_fill true).with_rtl true)).constrain_horizontal ∧
      (((((((Xilem.portal (V := Unit) ()).with_constrain_horizontal true).with_constrain_vertical
            true).content_must_fill true).with_rtl true)).build 9).constrain_vertical =
        ((((((Xilem.portal (V := Unit) ()).with_constrain_horizontal true).with_constrain_vertical
            true).content_must_fill true).with_rtl true)).constrain_vertical ∧
      (((((((Xilem.portal (V := Unit) ()).with_constrain_horizontal true).with_constrain_vertical
            true).content_must_fill true).with_rtl true)).build 9).must_fill =
        ((((((Xilem.portal (V := Unit) ()).with_constrain_horizontal true).with_constrain_vertical
            true).content_must_fill true).with_rtl true)).must_fill ∧
      (((((((Xilem.portal (V := Unit) ()).with_constrain_horizontal true).with_constrain_vertical
            true).content_must_fill true).with_rtl true)).build 9).right_to_left =
        ((((((Xilem.portal (V := Unit) ()).with_constrain_horizontal true).with_constrain_vertical
            true).content_must_fill true).with_rtl true)).right_to_left ∧
      (((((((Xilem.portal (V := Unit) ()).with_constrain_horizontal true).with_constrain_vertical
            true).content_must_fill true).with_rtl true)).build 9).child = 9) ∧
    (((((XilemMasonry.portal (V := Unit) ()).content_must_fill true).with_rtl
            true).build 9).constrain_horizontal =
        (((XilemMasonry.portal (V := Unit) ()).content_must_fill true).with_rtl
            true).constrain_horizontal ∧
      ((((XilemMasonry.portal (V := Unit) ()).content_must_fill true).with_rtl
            true).build 9).constrain_vertical =
        (((XilemMasonry.portal (V := Unit) ()).content_must_fill true).with_rtl
            true).constrain_vertical ∧
      ((((XilemMasonry.portal (V := Unit) ()).content_must_fill true).with_rtl
            true).build 9).must_fill =
        (((XilemMasonry.portal (V := Unit) ()).content_must_fill true).with_rtl
            true).must_fill ∧
      ((((XilemMasonry.portal (V := Unit) ()).content_must_fill true).with_rtl
            true).build 9).right_to_left =
        (((XilemMasonry.portal (V := Unit) ()).content_must_fill true).with_rtl
            true).right_to_left ∧
      ((((XilemMasonry.portal (V := Unit) ()).content_must_fill true).with_rtl
            true).build 9).child = 9) ∧
    (((XilemMasonry.backdrop_blur (V := Unit) ()).build 9).blur_radius =
        (XilemMasonry.backdrop_blur (V := Unit) ()).blur_radius ∧
      ((XilemMasonry.backdrop_blur (V := Unit) ()).build 9).tint =
        (XilemMasonry.backdrop_blur (V := Unit) ()).tint ∧
      ((XilemMasonry.backdrop_blur (V := Unit) ()).build 9).clip_content =
        (XilemMasonry.backdrop_blur (V := Unit) ()).clip_content ∧
      ((XilemMasonry.backdrop_blur (V := Unit) ()).build 9).child = 9) :=
  ⟨by decide, by decide,
    build_carries_declared_properties Unit
      (((((Xilem.portal ()).with_constrain_horizontal true).with_constrain_vertical
          true).content_must_fill true).with_rtl true)
      (((XilemMasonry.portal ()).content_must_fill true).with_rtl true)
      (XilemMasonry.backdrop_blur ()) 9 (by decide) (by decide)⟩

/-- C8: for every pair of views of the same kind, including a pair of equal
views, `rebuild` ends by recursing into the child view's `rebuild` with the
element's child mutation handle, passing the new and previous child views —
for the `BackdropBlur` view and both crates' `Portal` views. -/
theorem rebuild_always_recurses_into_child
    (V : Type) (v p : XilemMasonry.BackdropBlurView V)
    (q r : XilemMasonry.PortalView V) (s t : Xilem.PortalView V) :
    (XilemMasonry.BackdropBlurView.rebuild v p).getLast? =
      some (.recurse v.child p.child) ∧
    (XilemMasonry.BackdropBlurView.rebuild v v).getLast? =
      some (.recurse v.child v.child) ∧
    (XilemMasonry.PortalView.rebuild q r).getLast? = some (.recurse q.child r.child) ∧
    (XilemMasonry.PortalView.rebuild q q).getLast? = some (.recurse q.child q.child) ∧
    (Xilem.PortalView.rebuild s t).getLast? = some (.recurse s.child t.child) ∧
    (Xilem.PortalView.rebuild s s).getLast? = some (.recurse s.child s.child) := by
  refine ⟨?_, ?_, ?_, ?_, ?_, ?_⟩ <;>
    · simp only [XilemMasonry.BackdropBlurView.rebuild, XilemMasonry.PortalView.rebuild,
        Xilem.PortalView.rebuild]
      split_ifs <;> rfl

/-- C9: `message` of the `BackdropBlur` view and of both crates' `Portal`
views neither handles nor transforms any message: it returns the child view's
`MessageResult` unchanged (so in particular a `Stale` child result propagates
as `Stale`). -/
theorem message_delegates_to_child
    (V A : Type) (vb : XilemMasonry.BackdropBlurView V) (vm : XilemMasonry.PortalView V)
    (vx : Xilem.PortalView V) (childMessage : V → MessageResult A) :
    vb.message childMessage = childMessage vb.child ∧
    vm.message childMessage = childMessage vm.child ∧
    vx.message childMessage = childMessage vx.child :=
  ⟨rfl, rfl, rfl⟩

/-- C10: when the blur radius compares at most `0.0` (negative values are
clamped to `0.0` by `f64::max`), `pre_paint` draws no blurred rounded
rectangle; it draws the plain tint fill exactly when the tint's alpha
component compares greater than `0.0` (in which case the fill carries the tint
color), and the separate `paint` hook draws nothing. -/
theorem nonpositive_blur_paints_plain_tint
    (w : Masonry.BackdropBlur) (cornerRadius : F64)
    (h : w.blur_radius.ieeeLe (.fin 0) = true) :
    ((w.pre_paint cornerRadius).any DrawCmd.isBlur) = false ∧
    ((w.pre_paint cornerRadius).any DrawCmd.isFill) = F64.ieeeLt (.fin 0) w.tint.a ∧
    (F64.ieeeLt (.fin 0) w.tint.a = true → .fillTint w.tint ∈ w.pre_paint cornerRadius) ∧
    w.paint = [] := by
  have hb : w.blur_radius.fmax (.fin 0) = .fin 0 := F64.fmax_zero_of_ieeeLe_zero h
  have h0 : F64.ieeeLt (.fin 0) (.fin 0) = false := by decide
  cases hlt : F64.ieeeLt (.fin 0) w.tint.a <;>
    simp [Masonry.BackdropBlur.pre_paint, Masonry.BackdropBlur.paint, hb, h0, hlt,
      Masonry.DrawCmd.isBlur, Masonry.DrawCmd.isFill]

/-- C10 witness: a widget with blur radius `-3.0` (clamped to `0.0`) over a
corner radius of `4.0`. -/
theorem nonpositive_blur_paints_plain_tint_witness :
    ((Masonry.BackdropBlur.new 5).with_blur_radius (.fin (-3))).blur_radius.ieeeLe
        (.fin 0) = true ∧
    (((((Masonry.BackdropBlur.new 5).with_blur_radius (.fin (-3))).pre_paint
          (.fin 4)).any DrawCmd.isBlur) = false ∧
      ((((Masonry.BackdropBlur.new 5).with_blur_radius (.fin (-3))).pre_paint
          (.fin 4)).any DrawCmd.isFill) =
        F64.ieeeLt (.fin 0) ((Masonry.BackdropBlur.new 5).with_blur_radius (.fin (-3))).tint.a ∧
      (F64.ieeeLt (.fin 0) ((Masonry.BackdropBlur.new 5).with_blur_radius (.fin (-3))).tint.a =
          true →
        .fillTint ((Masonry.BackdropBlur.new 5).with_blur_radius (.fin (-3))).tint ∈
          ((Masonry.BackdropBlur.new 5).with_blur_radius (.fin (-3))).pre_paint (.fin 4)) ∧
      ((Masonry.BackdropBlur.new 5).with_blur_radius (.fin (-3))).paint = []) :=
  ⟨by decide,
    nonpositive_blur_paints_plain_tint
      ((Masonry.BackdropBlur.new 5).with_blur_radius (.fin (-3))) (.fin 4) (by decide)⟩

end Theorems
